import Mathlib

/-!
Shallow embedding of `src/state.rs` of prototype-orbit (the simulation state
and camera subsystem).

Modelling conventions:
* `f64`/`f32` arithmetic is modelled as exact rational arithmetic over `ℚ`
  (the idealised real semantics; no rounding, no NaN arising from finite
  operands).
* The fold seed `1./0.` in `curve_body_mismatch` is the `f64` value `+∞`.
  The fold result is modelled as `Option ℚ`: `some m` is a finite value `m`
  and `none` is the surviving non-finite seed (which happens exactly when
  `orbit_bodies` is empty).  `f64::min(+∞, r) = r` and on finite values
  `f64::min` is the usual `min`.
* A comparison `a.distance(b) > t` (cgmath `distance` is the Euclidean
  distance, a real square root) is decided without square roots via the
  exact equivalence, for `t : ℝ` and `dsq ≥ 0`:
  `Real.sqrt dsq > t ↔ t < 0 ∨ t^2 < dsq`.
* Rust panics (here: the out-of-bounds slice index `orbit_bodies[idx]`)
  are modelled by returning `none` from an `Option` valued function.
* `Uuid::new_v4()` is an external random-identifier generator; it is
  modelled as an explicit stream `gen : ℕ → Uuid` of identifiers, the
  `i`-th call returning `gen i`, with `Uuid` modelled as `ℕ`.
* `u32` screen dimensions are `ℕ`, `i32` pixel coordinates are `ℤ`,
  `Vector2` is a pair.
-/

/-- Modelled from the spec: unique identifiers are random 128-bit values
produced by an opaque external generator (`uuid::Uuid`); modelled as `ℕ`. -/
abbrev Uuid := ℕ

/-- The `OrbitBody` struct from `src/state.rs` (fields as in the source). -/
structure OrbitBody where
  id : Uuid
  center : ℚ × ℚ
  radius : ℚ
  mass : ℚ
  velocity : ℚ × ℚ
  deriving DecidableEq

/-- Modelled from the spec: `OrbitCurve` (defined in the external module
`orbitcurve`, not under `src/`) is "a precomputed ordered sequence of
predicted world-space plot points for one body"; only its `plots` field is
consumed by this core. -/
structure OrbitCurve where
  plots : List (ℚ × ℚ)
  deriving DecidableEq

/-- The `Drawables` struct from `src/state.rs`. -/
structure Drawables where
  orbit_bodies : List OrbitBody
  orbit_curves : List OrbitCurve
  deriving DecidableEq

/-- Squared Euclidean distance between two points (cgmath `distance` is its
square root). -/
def dist_sq (p q : ℚ × ℚ) : ℚ :=
  (p.1 - q.1) ^ 2 + (p.2 - q.2) ^ 2

/-- The fold `self.orbit_bodies.iter().map(|b| b.radius).fold(1./0., f64::min)`:
the fold of `f64::min` over the radii, seeded with `+∞` (`1./0.`).
`none` is the non-finite seed surviving an empty fold; on a non-empty list
the result is the finite minimum, since `f64::min(+∞, r) = r`. -/
def min_fold (radii : List ℚ) : Option ℚ :=
  radii.foldl (fun acc r => match acc with | none => some r | some a => some (min a r)) none

/-- The local `mismatch_distance` of `Drawables::curve_body_mismatch`:
the fold above multiplied by `fault_tolerance`.  When the fold is the
non-finite seed (empty `orbit_bodies`) the `f64` product `+∞ * ft` is again
non-finite (`+∞`, `-∞` or NaN depending on the sign of `ft`), kept as
`none`; that value is never actually compared, because with empty
`orbit_bodies` the loop panics at `orbit_bodies[idx]` before any comparison
(see `mismatch_scan`). -/
def mismatch_distance (d : Drawables) (fault_tolerance : ℚ) : Option ℚ :=
  (min_fold (d.orbit_bodies.map (fun b => b.radius))).map (fun m => m * fault_tolerance)

/-- The source comparison `dist_to_body > mismatch_distance` where
`dist_to_body = plots[0].distance(center)`: for a finite threshold `t`,
`Real.sqrt (dist_sq p q) > t ↔ t < 0 ∨ t ^ 2 < dist_sq p q` exactly.
The `none` (non-finite threshold) branch is unreachable from
`curve_body_mismatch` (the panic at `orbit_bodies[idx]` fires first when
`orbit_bodies` is empty); for the documented domain `fault_tolerance > 0`
the non-finite value would be `+∞` and the comparison false, which is the
value chosen here. -/
def dist_gt (p q : ℚ × ℚ) : Option ℚ → Bool
  | none => false
  | some t => decide (t < 0) || decide (t * t < dist_sq p q)

/-- The `for (idx, curve) in self.orbit_curves.iter().enumerate()` loop of
`curve_body_mismatch`: skip curves with empty `plots`; otherwise index
`orbit_bodies[idx]` (a Rust slice index, which panics — modelled `none` —
when `idx` is out of bounds) and short-circuit with `true` on the first
curve whose head plot is farther than the threshold from the body center. -/
def mismatch_scan (bodies : List OrbitBody) (md : Option ℚ) :
    List OrbitCurve → ℕ → Option Bool
  | [], _ => some false
  | c :: cs, idx =>
    match c.plots with
    | [] => mismatch_scan bodies md cs (idx + 1)
    | p0 :: _ =>
      match bodies[idx]? with
      | none => none
      | some b =>
        if dist_gt p0 b.center md then some true
        else mismatch_scan bodies md cs (idx + 1)

/-- The method `Drawables::curve_body_mismatch` from `src/state.rs`.  `some b` is a
normal return of `b`; `none` is the index-out-of-bounds panic. -/
def Drawables.curve_body_mismatch (d : Drawables) (fault_tolerance : ℚ) : Option Bool :=
  mismatch_scan d.orbit_bodies (mismatch_distance d fault_tolerance) d.orbit_curves 0

/-- The constructor `Drawables::initial` from `src/state.rs`; `gen i` is the result of the
`i`-th call to `Uuid::new_v4()`. -/
def Drawables.initial (gen : ℕ → Uuid) : Drawables where
  orbit_bodies :=
    [ { id := gen 0, center := (0, 0), radius := 1.2, mass := 1660, velocity := (0, -1) },
      { id := gen 1, center := (3.5, 0), radius := 0.9, mass := 1000, velocity := (0, 1.6) },
      { id := gen 2, center := (9, 0), radius := 0.3, mass := 1, velocity := (0, 2) },
      { id := gen 3, center := (-12, 0), radius := 0.4, mass := 2, velocity := (0, -1.5) } ]
  orbit_curves := []

/-- The function `birds_eye_at_z` from `src/state.rs`: the identity matrix with the
`z.z` entry (row 2, column 2) set to `height`. -/
def birds_eye_at_z (height : ℚ) : Fin 4 → Fin 4 → ℚ :=
  fun i j => if i = j then (if i = (2 : Fin 4) then height else 1) else 0

/-- Modelled from the spec: `ComputeDebugInfo` (module `debug`, not under
`src/`) is an "opaque externally-owned diagnostics record, not part of core
invariants"; modelled as an empty record. -/
structure ComputeDebugInfo where
  deriving DecidableEq

/-- Modelled from the spec: `ComputeDebugInfo::initial()` of the external
`debug` module. -/
def ComputeDebugInfo.initial : ComputeDebugInfo := {}

/-- Modelled from the spec: cgmath's `ortho(left, right, bottom, top, near,
far)` is an external math-primitive constructor ("not reimplemented");
modelled as the record of its six clipping-plane parameters. -/
structure Ortho where
  left : ℚ
  right : ℚ
  bottom : ℚ
  top : ℚ
  near : ℚ
  far : ℚ
  deriving DecidableEq

/-- The external `ortho` constructor. -/
def ortho (l r b t n f : ℚ) : Ortho :=
  { left := l, right := r, bottom := b, top := t, near := n, far := f }

/-- The `State` struct from `src/state.rs`. -/
structure State where
  origin : ℚ × ℚ
  zoom : ℚ
  screen_width : ℕ
  screen_height : ℕ
  view : Fin 4 → Fin 4 → ℚ
  user_quit : Bool
  drawables : Drawables
  debug_info : ComputeDebugInfo
  pause : Bool
  render_curves : Bool

/-- The constructor `State::new` from `src/state.rs`; `gen` feeds the `Uuid::new_v4()`
calls inside `Drawables::initial`. -/
def State.new (screen_width screen_height : ℕ) (gen : ℕ → Uuid) : State where
  origin := (0, 0)
  zoom := 16
  screen_width := screen_width
  screen_height := screen_height
  view := birds_eye_at_z 1
  user_quit := false
  drawables := Drawables.initial gen
  debug_info := ComputeDebugInfo.initial
  pause := false
  render_curves := true

/-- The method `State::aspect_ratio` from `src/state.rs` (`screen_width as f32 /
screen_height as f32`).  Named `aspect` here. -/
def State.aspect (s : State) : ℚ :=
  (s.screen_width : ℚ) / (s.screen_height : ℚ)

/-- The method `State::projection` from `src/state.rs`. -/
def State.projection (s : State) : Ortho :=
  ortho (s.origin.1 - s.zoom * s.aspect)
        (s.origin.1 + s.zoom * s.aspect)
        (s.origin.2 - s.zoom)
        (s.origin.2 + s.zoom)
        1
        (-1)

/-- The method `State::screen_to_world_normalised` from `src/state.rs`; the pixel
argument is an `i32` vector, modelled as `ℤ × ℤ`. -/
def State.screen_to_world_normalised (s : State) (pixels : ℤ × ℤ) : ℚ × ℚ :=
  (s.zoom * s.aspect * ((pixels.1 : ℚ) * 2 / (s.screen_width : ℚ) - 1),
   s.zoom * (-(pixels.2 : ℚ) * 2 / (s.screen_height : ℚ) + 1))

/-- The method `State::screen_to_world` from `src/state.rs`. -/
def State.screen_to_world (s : State) (pixels : ℤ × ℤ) : ℚ × ℚ :=
  (s.origin.1 + (s.screen_to_world_normalised pixels).1,
   s.origin.2 + (s.screen_to_world_normalised pixels).2)

/-- The method `State::visible_world_range` from `src/state.rs`. -/
def State.visible_world_range (s : State) : (ℚ × ℚ) × (ℚ × ℚ) :=
  (s.screen_to_world (0, (s.screen_height : ℤ)),
   s.screen_to_world ((s.screen_width : ℤ), 0))

/-- A call of `curve_body_mismatch` through a shared borrow `&self`: the
call is a pure query, so it returns its result together with the (unchanged)
borrowed state. -/
def curve_body_mismatch_call (d : Drawables) (fault_tolerance : ℚ) :
    Option Bool × Drawables :=
  (d.curve_body_mismatch fault_tolerance, d)

/-- Repeated calls: `n` successive calls of `curve_body_mismatch` with no intervening
mutation: each call reads the state left by the previous call; returns the
list of the `n` results and the final state. -/
def repeated_calls (fault_tolerance : ℚ) : ℕ → Drawables → List (Option Bool) × Drawables
  | 0, d => ([], d)
  | n + 1, d =>
    let r := curve_body_mismatch_call d fault_tolerance
    let rest := repeated_calls fault_tolerance n r.2
    (r.1 :: rest.1, rest.2)

/-- The mismatch predicate as the spec words it: some index `i` holds a
curve whose `plots` is non-empty and whose first plot point lies at
Euclidean distance strictly greater than
`(minimum radius over all bodies) * fault_tolerance` from
`orbit_bodies[i].center` ("minimum over all bodies": a radius of some body
that is less than or equal to every body's radius). -/
def spec_mismatch (d : Drawables) (fault_tolerance : ℚ) : Prop :=
  ∃ (i : ℕ) (c : OrbitCurve) (b : OrbitBody) (p0 : ℚ × ℚ) (m : ℚ),
    d.orbit_curves[i]? = some c ∧
    d.orbit_bodies[i]? = some b ∧
    c.plots.head? = some p0 ∧
    m ∈ d.orbit_bodies.map (fun x => x.radius) ∧
    (∀ r ∈ d.orbit_bodies.map (fun x => x.radius), m ≤ r) ∧
    dist_gt p0 b.center (some (m * fault_tolerance)) = true

lemma foldl_minf_some (t : List ℚ) : ∀ a : ℚ,
    t.foldl (fun acc r => match acc with | none => some r | some a => some (min a r))
      (some a) = some (t.foldl min a) := by
  induction t with
  | nil => intro a; rfl
  | cons r t ih => intro a; simpa using ih (min a r)

lemma min_fold_cons (r : ℚ) (t : List ℚ) :
    min_fold (r :: t) = some (t.foldl min r) := by
  simpa [min_fold] using foldl_minf_some t r

lemma min_fold_eq_none_iff (l : List ℚ) : min_fold l = none ↔ l = [] := by
  cases l with
  | nil => simp [min_fold]
  | cons r t => simp [min_fold_cons]

lemma foldl_min_le (t : List ℚ) : ∀ a : ℚ,
    t.foldl min a ≤ a ∧ ∀ r ∈ t, t.foldl min a ≤ r := by
  induction t with
  | nil => intro a; simp
  | cons r t ih =>
    intro a
    obtain ⟨h1, h2⟩ := ih (min a r)
    simp only [List.foldl_cons]
    refine ⟨le_trans h1 (min_le_left a r), ?_⟩
    intro x hx
    rcases List.mem_cons.mp hx with hx | hx
    · rw [hx]; exact le_trans h1 (min_le_right a r)
    · exact h2 x hx

lemma foldl_min_mem (t : List ℚ) : ∀ a : ℚ,
    t.foldl min a = a ∨ t.foldl min a ∈ t := by
  induction t with
  | nil => intro a; simp
  | cons r t ih =>
    intro a
    simp only [List.foldl_cons]
    rcases ih (min a r) with h | h
    · rw [h]
      rcases min_choice a r with hm | hm
      · exact Or.inl hm
      · exact Or.inr (by rw [hm]; exact List.mem_cons_self r t)
    · exact Or.inr (List.mem_cons_of_mem r h)

lemma min_fold_spec {l : List ℚ} {m : ℚ} (h : min_fold l = some m) :
    m ∈ l ∧ ∀ r ∈ l, m ≤ r := by
  cases l with
  | nil => simp [min_fold] at h
  | cons r t =>
    rw [min_fold_cons] at h
    obtain rfl : t.foldl min r = m := Option.some.inj h
    obtain ⟨h1, h2⟩ := foldl_min_le t r
    refine ⟨?_, ?_⟩
    · rcases foldl_min_mem t r with hm | hm
      · rw [hm]; exact List.mem_cons_self r t
      · exact List.mem_cons_of_mem r hm
    · intro x hx
      rcases List.mem_cons.mp hx with hx | hx
      · rw [hx]; exact h1
      · exact h2 x hx

lemma min_fold_exists_of_ne_nil {l : List ℚ} (h : l ≠ []) :
    ∃ m : ℚ, min_fold l = some m := by
  cases hf : min_fold l with
  | none => exact absurd ((min_fold_eq_none_iff l).mp hf) h
  | some m => exact ⟨m, rfl⟩

lemma min_fold_perm {l l' : List ℚ} (p : l.Perm l') : min_fold l = min_fold l' := by
  have key : ∀ o : Option ℚ,
      l.foldl (fun acc r => match acc with | none => some r | some a => some (min a r)) o =
      l'.foldl (fun acc r => match acc with | none => some r | some a => some (min a r)) o := by
    induction p with
    | nil => intro o; rfl
    | cons x _ ih => intro o; simpa using ih _
    | swap x y l =>
      intro o
      have hcomm : ∀ (o : Option ℚ) (u v : ℚ),
          (fun acc r => match acc with | none => some r | some a => some (min a r))
            ((fun acc r => match acc with | none => some r | some a => some (min a r)) o u) v =
          (fun acc r => match acc with | none => some r | some a => some (min a r))
            ((fun acc r => match acc with | none => some r | some a => some (min a r)) o v) u := by
        intro o u v
        cases o with
        | none => simp [min_comm]
        | some a => simp [min_right_comm]
      simpa using congrArg (l.foldl _) (hcomm o y x)
    | trans _ _ ih1 ih2 => intro o; exact (ih1 o).trans (ih2 o)
  simpa [min_fold] using key none

lemma mismatch_scan_eq_true_iff (bodies : List OrbitBody) (md : Option ℚ) :
    ∀ (curves : List OrbitCurve) (idx : ℕ),
      mismatch_scan bodies md curves idx = some true ↔
      ∃ (j : ℕ) (c : OrbitCurve) (b : OrbitBody) (p0 : ℚ × ℚ),
        curves[j]? = some c ∧ bodies[idx + j]? = some b ∧
        c.plots.head? = some p0 ∧ dist_gt p0 b.center md = true := by
  intro curves
  induction curves with
  | nil => intro idx; simp [mismatch_scan]
  | cons c cs ih =>
    intro idx
    cases hp : c.plots with
    | nil =>
      rw [show mismatch_scan bodies md (c :: cs) idx =
            mismatch_scan bodies md cs (idx + 1) by simp [mismatch_scan, hp]]
      rw [ih (idx + 1)]
      constructor
      · rintro ⟨j, c', b, p0, h1, h2, h3, h4⟩
        exact ⟨j + 1, c', b, p0, by simpa using h1,
          by simpa [Nat.add_assoc, Nat.add_comm 1 j] using h2, h3, h4⟩
      · rintro ⟨j, c', b, p0, h1, h2, h3, h4⟩
        cases j with
        | zero =>
          obtain rfl : c = c' := by simpa using h1
          rw [hp] at h3; simp at h3
        | succ j =>
          exact ⟨j, c', b, p0, by simpa using h1,
            by simpa [Nat.add_assoc, Nat.add_comm 1 j] using h2, h3, h4⟩
    | cons p0 rest =>
      cases hb : bodies[idx]? with
      | none =>
        rw [show mismatch_scan bodies md (c :: cs) idx = none by
              simp [mismatch_scan, hp, hb]]
        constructor
        · intro h; simp at h
        · rintro ⟨j, c', b, p0', h1, h2, h3, h4⟩
          have hlen : bodies.length ≤ idx := List.getElem?_eq_none_iff.mp hb
          have : bodies[idx + j]? = none :=
            List.getElem?_eq_none_iff.mpr (le_trans hlen (Nat.le_add_right idx j))
          rw [this] at h2; simp at h2
      | some b =>
        by_cases hd : dist_gt p0 b.center md = true
        · rw [show mismatch_scan bodies md (c :: cs) idx = some true by
                simp [mismatch_scan, hp, hb, hd]]
          constructor
          · intro _
            exact ⟨0, c, b, p0, by simp, by simpa using hb, by simp [hp], hd⟩
          · intro _; rfl
        · rw [show mismatch_scan bodies md (c :: cs) idx =
                mismatch_scan bodies md cs (idx + 1) by
                simp [mismatch_scan, hp, hb, hd]]
          rw [ih (idx + 1)]
          constructor
          · rintro ⟨j, c', b', p0', h1, h2, h3, h4⟩
            exact ⟨j + 1, c', b', p0', by simpa using h1,
              by simpa [Nat.add_assoc, Nat.add_comm 1 j] using h2, h3, h4⟩
          · rintro ⟨j, c', b', p0', h1, h2, h3, h4⟩
            cases j with
            | zero =>
              obtain rfl : c = c' := by simpa using h1
              rw [hp] at h3
              obtain rfl : p0 = p0' := by simpa using h3
              obtain rfl : b = b' := by rw [Nat.add_zero] at h2; rw [hb] at h2; simpa using h2
              exact absurd h4 hd
            | succ j =>
              exact ⟨j, c', b', p0', by simpa using h1,
                by simpa [Nat.add_assoc, Nat.add_comm 1 j] using h2, h3, h4⟩

/-- C1: for every `Drawables` state and every `fault_tolerance`,
`curve_body_mismatch` returns `true` exactly when some index `i` holds a
curve with non-empty `plots` whose first plot point is at Euclidean
distance strictly greater than
`(minimum radius over all bodies) * fault_tolerance` from
`orbit_bodies[i].center`; in particular it returns `false` when
`orbit_curves` is empty (any bodies, any tolerance), and a distance exactly
equal to the threshold is not a mismatch (shown on a concrete state with
body radius 2, tolerance 1/2 and first plot point at distance exactly 1
from the body center). -/
theorem claim_C1 :
    (∀ (d : Drawables) (ft : ℚ),
        d.curve_body_mismatch ft = some true ↔ spec_mismatch d ft) ∧
    (∀ (bodies : List OrbitBody) (ft : ℚ),
        Drawables.curve_body_mismatch ⟨bodies, []⟩ ft = some false) ∧
    Drawables.curve_body_mismatch
      ⟨[⟨0, (0, 0), 2, 1, (0, 0)⟩], [⟨[(1, 0)]⟩]⟩ (1 / 2) = some false := by
  refine ⟨?_, fun bodies ft => rfl,
    by simp [Drawables.curve_body_mismatch, mismatch_scan, mismatch_distance, min_fold,
      dist_gt, dist_sq]⟩
  intro d ft
  rw [Drawables.curve_body_mismatch, mismatch_scan_eq_true_iff]
  constructor
  · rintro ⟨j, c, b, p0, hc, hb, hp, hd⟩
    rw [Nat.zero_add] at hb
    have hne : d.orbit_bodies.map (fun x => x.radius) ≠ [] := by
      intro h
      have hb0 : d.orbit_bodies = [] := by
        cases hbs : d.orbit_bodies with
        | nil => rfl
        | cons x xs => rw [hbs] at h; simp at h
      rw [hb0] at hb; simp at hb
    obtain ⟨m, hm⟩ := min_fold_exists_of_ne_nil hne
    obtain ⟨hmem, hlb⟩ := min_fold_spec hm
    refine ⟨j, c, b, p0, m, hc, hb, hp, hmem, hlb, ?_⟩
    simpa only [mismatch_distance, hm, Option.map_some'] using hd
  · rintro ⟨i, c, b, p0, m, hc, hb, hp, hmem, hlb, hd⟩
    have hne : d.orbit_bodies.map (fun x => x.radius) ≠ [] := by
      intro h
      rw [h] at hmem; simp at hmem
    obtain ⟨m', hm'⟩ := min_fold_exists_of_ne_nil hne
    obtain ⟨hmem', hlb'⟩ := min_fold_spec hm'
    have hmm : m = m' := le_antisymm (hlb m' hmem') (hlb' m hmem)
    refine ⟨i, c, b, p0, hc, by simpa using hb, hp, ?_⟩
    simp only [mismatch_distance, hm', Option.map_some']
    rw [← hmm]
    exact hd

/-- C2: for every `State` with positive screen dimensions and every pixel
`(x, y)`, `screen_to_world_normalised` equals
`(zoom * aspect_ratio * (2*x/w - 1), zoom * (-2*y/h + 1))`, is independent
of `origin`, and `screen_to_world` is `origin` plus that vector. -/
theorem claim_C2 :
    ∀ (s : State) (x y : ℤ) (o : ℚ × ℚ),
      0 < s.screen_width → 0 < s.screen_height →
      s.screen_to_world_normalised (x, y) =
        (s.zoom * s.aspect * (2 * (x : ℚ) / (s.screen_width : ℚ) - 1),
         s.zoom * (-2 * (y : ℚ) / (s.screen_height : ℚ) + 1)) ∧
      State.screen_to_world_normalised { s with origin := o } (x, y) =
        s.screen_to_world_normalised (x, y) ∧
      s.screen_to_world (x, y) =
        (s.origin.1 + s.zoom * s.aspect * (2 * (x : ℚ) / (s.screen_width : ℚ) - 1),
         s.origin.2 + s.zoom * (-2 * (y : ℚ) / (s.screen_height : ℚ) + 1)) := by
  intro s x y o _ _
  refine ⟨?_, rfl, ?_⟩
  · simp only [State.screen_to_world_normalised, Prod.mk.injEq]
    constructor <;> ring
  · simp only [State.screen_to_world, State.screen_to_world_normalised, Prod.mk.injEq]
    constructor <;> ring

/-- Witness for C2 at `State::new(100, 100)` and pixel `(25, 75)`. -/
theorem claim_C2_witness :
    0 < (State.new 100 100 (fun n => n)).screen_width ∧
    0 < (State.new 100 100 (fun n => n)).screen_height ∧
    ((State.new 100 100 (fun n => n)).screen_to_world_normalised (25, 75) =
        ((State.new 100 100 (fun n => n)).zoom * (State.new 100 100 (fun n => n)).aspect *
           (2 * (25 : ℚ) / ((State.new 100 100 (fun n => n)).screen_width : ℚ) - 1),
         (State.new 100 100 (fun n => n)).zoom *
           (-2 * (75 : ℚ) / ((State.new 100 100 (fun n => n)).screen_height : ℚ) + 1)) ∧
      State.screen_to_world_normalised
          { State.new 100 100 (fun n => n) with origin := (3, 4) } (25, 75) =
        (State.new 100 100 (fun n => n)).screen_to_world_normalised (25, 75) ∧
      (State.new 100 100 (fun n => n)).screen_to_world (25, 75) =
        ((State.new 100 100 (fun n => n)).origin.1 +
           (State.new 100 100 (fun n => n)).zoom * (State.new 100 100 (fun n => n)).aspect *
             (2 * (25 : ℚ) / ((State.new 100 100 (fun n => n)).screen_width : ℚ) - 1),
         (State.new 100 100 (fun n => n)).origin.2 +
           (State.new 100 100 (fun n => n)).zoom *
             (-2 * (75 : ℚ) / ((State.new 100 100 (fun n => n)).screen_height : ℚ) + 1))) :=
  ⟨by decide, by decide,
   claim_C2 (State.new 100 100 (fun n => n)) 25 75 (3, 4) (by decide) (by decide)⟩

/-- C8: for every `State`, `projection()` is the orthographic matrix with
horizontal extent `[origin.x - zoom*aspect_ratio, origin.x + zoom*aspect_ratio]`,
vertical extent `[origin.y - zoom, origin.y + zoom]`, and near/far planes
fixed at `1.0` and `-1.0`. -/
theorem claim_C8 :
    ∀ s : State,
      s.projection.left = s.origin.1 - s.zoom * s.aspect ∧
      s.projection.right = s.origin.1 + s.zoom * s.aspect ∧
      s.projection.bottom = s.origin.2 - s.zoom ∧
      s.projection.top = s.origin.2 + s.zoom ∧
      s.projection.near = 1 ∧
      s.projection.far = -1 :=
  fun _ => ⟨rfl, rfl, rfl, rfl, rfl, rfl⟩

/-- C9: `curve_body_mismatch` is a pure query: a call through `&self`
returns the borrowed state unchanged, and any number of successive calls
with no intervening mutation all return the same boolean result. -/
theorem claim_C9 :
    ∀ (d : Drawables) (ft : ℚ) (n : ℕ),
      (curve_body_mismatch_call d ft).2 = d ∧
      (repeated_calls ft n d).2 = d ∧
      (repeated_calls ft n d).1 = List.replicate n (d.curve_body_mismatch ft) := by
  intro d ft n
  refine ⟨rfl, ?_, ?_⟩ <;>
    · induction n with
      | zero => rfl
      | succ n ih => simp [repeated_calls, curve_body_mismatch_call, ih, List.replicate_succ]

/-- C7: for all screen dimensions, `State::new` is total and yields origin
`(0,0)`, zoom `16`, `user_quit = false`, `pause = false`,
`render_curves = true`, exactly 4 bodies whose identifiers are pairwise
distinct (given that the external identifier generator returns four
distinct values, the UUID-v4 collision-resistance assumption), and zero
orbit curves. -/
theorem claim_C7 :
    ∀ (w h : ℕ) (gen : ℕ → Uuid),
      (∀ i j, i < 4 → j < 4 → i ≠ j → gen i ≠ gen j) →
      (State.new w h gen).origin = (0, 0) ∧
      (State.new w h gen).zoom = 16 ∧
      (State.new w h gen).user_quit = false ∧
      (State.new w h gen).pause = false ∧
      (State.new w h gen).render_curves = true ∧
      (State.new w h gen).drawables.orbit_bodies.length = 4 ∧
      ((State.new w h gen).drawables.orbit_bodies.map (fun b => b.id)).Nodup ∧
      (State.new w h gen).drawables.orbit_curves = [] := by
  intro w h gen hgen
  refine ⟨rfl, rfl, rfl, rfl, rfl, rfl, ?_, rfl⟩
  have h01 := hgen 0 1 (by norm_num) (by norm_num) (by norm_num)
  have h02 := hgen 0 2 (by norm_num) (by norm_num) (by norm_num)
  have h03 := hgen 0 3 (by norm_num) (by norm_num) (by norm_num)
  have h12 := hgen 1 2 (by norm_num) (by norm_num) (by norm_num)
  have h13 := hgen 1 3 (by norm_num) (by norm_num) (by norm_num)
  have h23 := hgen 2 3 (by norm_num) (by norm_num) (by norm_num)
  simp [State.new, Drawables.initial, h01, h02, h03, h12, h13, h23]

/-- Witness for C7 with the identity identifier stream. -/
theorem claim_C7_witness :
    (State.new 1 2 (fun n => n)).origin = (0, 0) ∧
    (State.new 1 2 (fun n => n)).zoom = 16 ∧
    (State.new 1 2 (fun n => n)).user_quit = false ∧
    (State.new 1 2 (fun n => n)).pause = false ∧
    (State.new 1 2 (fun n => n)).render_curves = true ∧
    (State.new 1 2 (fun n => n)).drawables.orbit_bodies.length = 4 ∧
    ((State.new 1 2 (fun n => n)).drawables.orbit_bodies.map (fun b => b.id)).Nodup ∧
    (State.new 1 2 (fun n => n)).drawables.orbit_curves = [] :=
  claim_C7 1 2 (fun n => n) (fun _ _ _ _ hne => hne)

lemma mismatch_scan_isSome (bodies : List OrbitBody) (md : Option ℚ) :
    ∀ (curves : List OrbitCurve) (idx : ℕ),
      idx + curves.length ≤ bodies.length →
      ∃ b : Bool, mismatch_scan bodies md curves idx = some b := by
  intro curves
  induction curves with
  | nil => intro idx _; exact ⟨false, rfl⟩
  | cons c cs ih =>
    intro idx hlen
    cases hp : c.plots with
    | nil =>
      obtain ⟨b, hb⟩ := ih (idx + 1) (by simp at hlen; omega)
      exact ⟨b, by simp [mismatch_scan, hp, hb]⟩
    | cons p0 rest =>
      have hidx : idx < bodies.length := by simp at hlen; omega
      have hb : bodies[idx]? = some bodies[idx] := List.getElem?_eq_getElem hidx
      by_cases hd : dist_gt p0 (bodies[idx]).center md = true
      · exact ⟨true, by simp [mismatch_scan, hp, hb, hd]⟩
      · obtain ⟨b, hbb⟩ := ih (idx + 1) (by simp at hlen; omega)
        exact ⟨b, by simp [mismatch_scan, hp, hb, hd, hbb]⟩

lemma mismatch_scan_all_empty (bodies : List OrbitBody) (md : Option ℚ) :
    ∀ (curves : List OrbitCurve) (idx : ℕ),
      (∀ c ∈ curves, c.plots = ([] : List (ℚ × ℚ))) →
      mismatch_scan bodies md curves idx = some false := by
  intro curves
  induction curves with
  | nil => intro idx _; rfl
  | cons c cs ih =>
    intro idx hall
    have hp : c.plots = [] := hall c (List.mem_cons_self c cs)
    have := ih (idx + 1) (fun c' hc' => hall c' (List.mem_cons_of_mem c hc'))
    simp [mismatch_scan, hp, this]

/-- C3 counterexample: a `Drawables` with one body but a second curve that
has a non-empty `plots` makes `curve_body_mismatch` hit the out-of-bounds
slice index `orbit_bodies[1]` — a Rust panic (modelled `none`), not a
normal boolean return, contradicting "never as an explicit failure or
abort". -/
theorem claim_C3_cex :
    Drawables.curve_body_mismatch
      ⟨[⟨0, (0, 0), 1, 1, (0, 0)⟩], [⟨[]⟩, ⟨[(5, 5)]⟩]⟩ 1 = none := by
  simp [Drawables.curve_body_mismatch, mismatch_scan, mismatch_distance, min_fold,
    dist_gt, dist_sq]

/-- C3 amended: `curve_body_mismatch` terminates normally (returns a
boolean, with no panic) for every fault_tolerance whenever `orbit_curves`
is no longer than `orbit_bodies` (the documented "shorter is OK" rule);
outside that rule a curve with non-empty `plots` at an index with no body
aborts with an index-out-of-bounds panic (see the counterexample). -/
theorem claim_C3_amended :
    ∀ (d : Drawables) (ft : ℚ),
      d.orbit_curves.length ≤ d.orbit_bodies.length →
      ∃ b : Bool, d.curve_body_mismatch ft = some b := by
  intro d ft hlen
  exact mismatch_scan_isSome d.orbit_bodies (mismatch_distance d ft) d.orbit_curves 0
    (by simpa using hlen)

/-- Witness for the amended C3 on a one-body, one-curve state. -/
theorem claim_C3_witness :
    ∃ b : Bool,
      Drawables.curve_body_mismatch
        ⟨[⟨0, (0, 0), 1, 1, (0, 0)⟩], [⟨[(7, 7)]⟩]⟩ 3 = some b :=
  claim_C3_amended ⟨[⟨0, (0, 0), 1, 1, (0, 0)⟩], [⟨[(7, 7)]⟩]⟩ 3 (by decide)

/-- C4 counterexample: with empty `orbit_bodies` and a curve whose `plots`
is non-empty, `curve_body_mismatch` does not return `false`: it panics at
`orbit_bodies[0]` (modelled `none`), even though `mismatch_distance` is the
non-finite `+∞ * fault_tolerance` (modelled `none`). -/
theorem claim_C4_cex :
    mismatch_distance ⟨[], [⟨[(0, 0)]⟩]⟩ 1 = none ∧
    Drawables.curve_body_mismatch ⟨[], [⟨[(0, 0)]⟩]⟩ 1 = none ∧
    Drawables.curve_body_mismatch ⟨[], [⟨[(0, 0)]⟩]⟩ 1 ≠ some false := by
  refine ⟨rfl, ?_, ?_⟩ <;>
    simp [Drawables.curve_body_mismatch, mismatch_scan, mismatch_distance, min_fold]

/-- C4 amended: with empty `orbit_bodies` the fold seed survives, so
`mismatch_distance` is non-finite (`+∞` scaled by the tolerance) and
`curve_body_mismatch` can never report a mismatch, for every
`fault_tolerance`: it returns `false` whenever every curve's `plots` is
empty, and otherwise aborts on the out-of-bounds body index rather than
returning `true`. -/
theorem claim_C4_amended :
    ∀ (d : Drawables) (ft : ℚ),
      d.orbit_bodies = [] →
      mismatch_distance d ft = none ∧
      d.curve_body_mismatch ft ≠ some true ∧
      ((∀ c ∈ d.orbit_curves, c.plots = ([] : List (ℚ × ℚ))) →
        d.curve_body_mismatch ft = some false) := by
  intro d ft hbodies
  refine ⟨by simp [mismatch_distance, min_fold, hbodies], ?_, ?_⟩
  · intro htrue
    rw [Drawables.curve_body_mismatch, mismatch_scan_eq_true_iff] at htrue
    obtain ⟨j, c, b, p0, _, hb, _, _⟩ := htrue
    rw [hbodies] at hb
    simp at hb
  · intro hall
    exact mismatch_scan_all_empty d.orbit_bodies (mismatch_distance d ft) d.orbit_curves 0 hall

/-- Witness for the amended C4 on an empty-bodies state with one
empty-plots curve. -/
theorem claim_C4_witness :
    mismatch_distance ⟨[], [⟨[]⟩]⟩ 5 = none ∧
    Drawables.curve_body_mismatch ⟨[], [⟨[]⟩]⟩ 5 = some false :=
  ⟨(claim_C4_amended ⟨[], [⟨[]⟩]⟩ 5 rfl).1,
   (claim_C4_amended ⟨[], [⟨[]⟩]⟩ 5 rfl).2.2 (by decide)⟩

/-- C6: `visible_world_range()` is the pair
`(screen_to_world((0, screen_height)), screen_to_world((screen_width, 0)))`
— the (min-corner, max-corner) of the visible world rectangle — and for
`screen_width = 180`, `screen_height = 90`, `zoom = 3`, origin `(0,0)` it
equals `((-6,-3), (6,3))`. -/
theorem claim_C6 :
    (∀ s : State,
      s.visible_world_range =
        (s.screen_to_world (0, (s.screen_height : ℤ)),
         s.screen_to_world ((s.screen_width : ℤ), 0))) ∧
    ∀ g : ℕ → Uuid,
      State.visible_world_range { State.new 180 90 g with zoom := 3 } =
        ((-6, -3), (6, 3)) := by
  refine ⟨fun s => rfl, fun g => ?_⟩
  simp [State.visible_world_range, State.screen_to_world,
    State.screen_to_world_normalised, State.aspect, State.new, Prod.ext_iff]
  norm_num

/-- C5 counterexample: on a 1×1 screen (positive dimensions, default
zoom 16 > 0) the center pixel `(screen_width/2, screen_height/2) = (0, 0)`
maps to `origin + (-zoom*aspect_ratio, zoom)`, not to `origin + (0, 0)`:
the center-pixel clause of the claim fails for odd screen dimensions. -/
theorem claim_C5_cex :
    0 < (State.new 1 1 (fun n => n)).screen_width ∧
    0 < (State.new 1 1 (fun n => n)).screen_height ∧
    0 < (State.new 1 1 (fun n => n)).zoom ∧
    (State.new 1 1 (fun n => n)).screen_to_world
        (((State.new 1 1 (fun n => n)).screen_width : ℤ) / 2,
         ((State.new 1 1 (fun n => n)).screen_height : ℤ) / 2) ≠
      ((State.new 1 1 (fun n => n)).origin.1, (State.new 1 1 (fun n => n)).origin.2) := by
  refine ⟨by decide, by decide, by norm_num [State.new], ?_⟩
  simp [State.screen_to_world, State.screen_to_world_normalised, State.aspect,
    State.new, Prod.ext_iff]

/-- C5 amended: for every `State` with positive screen dimensions and
positive zoom, `screen_to_world` maps the four pixel corners to
`origin + (±zoom*aspect_ratio, ±zoom)` (top-left pixel to
`origin + (-zoom*aspect_ratio, +zoom)`), and maps the center pixel
`(screen_width/2, screen_height/2)` (integer division) to `origin + (0,0)`
exactly whenever both screen dimensions are even; in particular
`State::new(100,100)` with default zoom 16 sends pixel `(50,50)` to
`(0.0, 0.0)` exactly. -/
theorem claim_C5_amended :
    (∀ g : ℕ → Uuid, (State.new 100 100 g).screen_to_world (50, 50) = (0, 0)) ∧
    ∀ s : State, 0 < s.screen_width → 0 < s.screen_height → 0 < s.zoom →
      s.screen_to_world (0, 0) =
        (s.origin.1 - s.zoom * s.aspect, s.origin.2 + s.zoom) ∧
      s.screen_to_world ((s.screen_width : ℤ), 0) =
        (s.origin.1 + s.zoom * s.aspect, s.origin.2 + s.zoom) ∧
      s.screen_to_world (0, (s.screen_height : ℤ)) =
        (s.origin.1 - s.zoom * s.aspect, s.origin.2 - s.zoom) ∧
      s.screen_to_world ((s.screen_width : ℤ), (s.screen_height : ℤ)) =
        (s.origin.1 + s.zoom * s.aspect, s.origin.2 - s.zoom) ∧
      (2 ∣ s.screen_width → 2 ∣ s.screen_height →
        s.screen_to_world ((s.screen_width : ℤ) / 2, (s.screen_height : ℤ) / 2) =
          (s.origin.1, s.origin.2)) := by
  constructor
  · intro g
    simp [State.screen_to_world, State.screen_to_world_normalised, State.aspect,
      State.new, Prod.ext_iff]
    norm_num
  · intro s hw hh _
    have hw' : ((s.screen_width : ℕ) : ℚ) ≠ 0 := Nat.cast_ne_zero.mpr hw.ne'
    have hh' : ((s.screen_height : ℕ) : ℚ) ≠ 0 := Nat.cast_ne_zero.mpr hh.ne'
    refine ⟨?_, ?_, ?_, ?_, ?_⟩
    · simp only [State.screen_to_world, State.screen_to_world_normalised, Prod.mk.injEq]
      constructor <;> · push_cast; field_simp; try ring
    · simp only [State.screen_to_world, State.screen_to_world_normalised, Prod.mk.injEq]
      constructor <;> · push_cast; field_simp; try ring
    · simp only [State.screen_to_world, State.screen_to_world_normalised, Prod.mk.injEq]
      constructor <;> · push_cast; field_simp; try ring
    · simp only [State.screen_to_world, State.screen_to_world_normalised, Prod.mk.injEq]
      constructor <;> · push_cast; field_simp; try ring
    · rintro ⟨k, hk⟩ ⟨l, hl⟩
      have hk0 : (k : ℚ) ≠ 0 := by
        have : 0 < k := by omega
        exact_mod_cast this.ne'
      have hl0 : (l : ℚ) ≠ 0 := by
        have : 0 < l := by omega
        exact_mod_cast this.ne'
      have e1 : ((s.screen_width : ℤ)) / 2 = (k : ℤ) := by omega
      have e2 : ((s.screen_height : ℤ)) / 2 = (l : ℤ) := by omega
      rw [e1, e2]
      simp only [State.screen_to_world, State.screen_to_world_normalised, State.aspect,
        hk, hl, Prod.mk.injEq]
      constructor <;> · push_cast; field_simp; try ring

/-- Witness for the amended C5 at `State::new(100, 100)` (even dimensions,
zoom 16 > 0): the top-left corner and the center pixel. -/
theorem claim_C5_witness :
    (State.new 100 100 (fun n => n)).screen_to_world (0, 0) =
      ((State.new 100 100 (fun n => n)).origin.1 -
         (State.new 100 100 (fun n => n)).zoom * (State.new 100 100 (fun n => n)).aspect,
       (State.new 100 100 (fun n => n)).origin.2 + (State.new 100 100 (fun n => n)).zoom) ∧
    (State.new 100 100 (fun n => n)).screen_to_world
        (((State.new 100 100 (fun n => n)).screen_width : ℤ) / 2,
         ((State.new 100 100 (fun n => n)).screen_height : ℤ) / 2) =
      ((State.new 100 100 (fun n => n)).origin.1,
       (State.new 100 100 (fun n => n)).origin.2) :=
  ⟨(claim_C5_amended.2 (State.new 100 100 (fun n => n))
      (by decide) (by decide) (by norm_num [State.new])).1,
   (claim_C5_amended.2 (State.new 100 100 (fun n => n))
      (by decide) (by decide) (by norm_num [State.new])).2.2.2.2
      (by decide) (by decide)⟩

lemma mismatch_scan_congr (bodies1 bodies2 : List OrbitBody) (md : Option ℚ) :
    ∀ (curves1 curves2 : List OrbitCurve) (idx : ℕ),
      curves1.length = curves2.length →
      (∀ j, j < curves1.length →
        (curves1[j]?).map (fun c => c.plots.head?) =
        (curves2[j]?).map (fun c => c.plots.head?)) →
      (∀ j, j < curves1.length →
        (bodies1[idx + j]?).map (fun b => b.center) =
        (bodies2[idx + j]?).map (fun b => b.center)) →
      mismatch_scan bodies1 md curves1 idx = mismatch_scan bodies2 md curves2 idx := by
  intro curves1
  induction curves1 with
  | nil =>
    intro curves2 idx hlen _ _
    obtain rfl : curves2 = [] := (List.length_eq_zero.mp hlen.symm)
    rfl
  | cons c1 t1 ih =>
    intro curves2 idx hlen hcurves hbodies
    cases curves2 with
    | nil => simp at hlen
    | cons c2 t2 =>
      have hhead : c1.plots.head? = c2.plots.head? := by
        have := hcurves 0 (by simp)
        simpa using this
      have hlen' : t1.length = t2.length := by simpa using hlen
      have hcurves' : ∀ j, j < t1.length →
          (t1[j]?).map (fun c => c.plots.head?) = (t2[j]?).map (fun c => c.plots.head?) := by
        intro j hj
        have := hcurves (j + 1) (by simp; omega)
        simpa using this
      have hbodies' : ∀ j, j < t1.length →
          (bodies1[idx + 1 + j]?).map (fun b => b.center) =
          (bodies2[idx + 1 + j]?).map (fun b => b.center) := by
        intro j hj
        have := hbodies (j + 1) (by simp; omega)
        simpa [Nat.add_assoc, Nat.add_comm 1 j] using this
      cases hp1 : c1.plots with
      | nil =>
        have hp2 : c2.plots = [] := by
          rw [hp1] at hhead
          exact List.head?_eq_none_iff.mp hhead.symm
        rw [show mismatch_scan bodies1 md (c1 :: t1) idx =
              mismatch_scan bodies1 md t1 (idx + 1) by simp [mismatch_scan, hp1]]
        rw [show mismatch_scan bodies2 md (c2 :: t2) idx =
              mismatch_scan bodies2 md t2 (idx + 1) by simp [mismatch_scan, hp2]]
        exact ih t2 (idx + 1) hlen' hcurves' hbodies'
      | cons p0 r1 =>
        have hhead2 : c2.plots.head? = some p0 := by rw [← hhead, hp1]; rfl
        cases hp2 : c2.plots with
        | nil => rw [hp2] at hhead2; simp at hhead2
        | cons q0 r2 =>
          obtain rfl : p0 = q0 := by rw [hp2] at hhead2; simpa using hhead2.symm
          have hbody := hbodies 0 (by simp)
          rw [Nat.add_zero] at hbody
          cases hb1 : bodies1[idx]? with
          | none =>
            have hb2 : bodies2[idx]? = none := by
              rw [hb1] at hbody
              cases hb2' : bodies2[idx]? with
              | none => rfl
              | some b2 => rw [hb2'] at hbody; simp at hbody
            rw [show mismatch_scan bodies1 md (c1 :: t1) idx = none by
                  simp [mismatch_scan, hp1, hb1]]
            rw [show mismatch_scan bodies2 md (c2 :: t2) idx = none by
                  simp [mismatch_scan, hp2, hb2]]
          | some b1 =>
            cases hb2 : bodies2[idx]? with
            | none => rw [hb1, hb2] at hbody; simp at hbody
            | some b2 =>
              have hcenter : b1.center = b2.center := by
                rw [hb1, hb2] at hbody; simpa using hbody
              by_cases hd : dist_gt p0 b1.center md = true
              · rw [show mismatch_scan bodies1 md (c1 :: t1) idx = some true by
                      simp [mismatch_scan, hp1, hb1, hd]]
                rw [show mismatch_scan bodies2 md (c2 :: t2) idx = some true by
                      simp [mismatch_scan, hp2, hb2, ← hcenter, hd]]
              · rw [show mismatch_scan bodies1 md (c1 :: t1) idx =
                      mismatch_scan bodies1 md t1 (idx + 1) by
                      simp [mismatch_scan, hp1, hb1, hd]]
                rw [show mismatch_scan bodies2 md (c2 :: t2) idx =
                      mismatch_scan bodies2 md t2 (idx + 1) by
                      simp [mismatch_scan, hp2, hb2, ← hcenter, hd]]
                exact ih t2 (idx + 1) hlen' hcurves' hbodies'

/-- C10: `curve_body_mismatch` depends only on the multiset of body radii,
the number of curves, each curve's emptiness/first plot point, and the
centers of the bodies at indices holding a curve: two states agreeing on
those yield the same result for every `fault_tolerance` — body identifiers,
masses, velocities and plot points after index 0 never influence it. -/
theorem claim_C10 :
    ∀ (d1 d2 : Drawables) (ft : ℚ),
      (d1.orbit_bodies.map (fun b => b.radius)).Perm
        (d2.orbit_bodies.map (fun b => b.radius)) →
      d1.orbit_curves.length = d2.orbit_curves.length →
      (∀ i, i < d1.orbit_curves.length →
        (d1.orbit_curves[i]?).map (fun c => c.plots.head?) =
        (d2.orbit_curves[i]?).map (fun c => c.plots.head?)) →
      (∀ i, i < d1.orbit_curves.length →
        (d1.orbit_bodies[i]?).map (fun b => b.center) =
        (d2.orbit_bodies[i]?).map (fun b => b.center)) →
      d1.curve_body_mismatch ft = d2.curve_body_mismatch ft := by
  intro d1 d2 ft hperm hlen hcurves hbodies
  have hmd : mismatch_distance d1 ft = mismatch_distance d2 ft := by
    simp only [mismatch_distance, min_fold_perm hperm]
  rw [Drawables.curve_body_mismatch, Drawables.curve_body_mismatch, hmd]
  exact mismatch_scan_congr d1.orbit_bodies d2.orbit_bodies
    (mismatch_distance d2 ft) d1.orbit_curves d2.orbit_curves 0 hlen hcurves
    (by simpa using hbodies)

/-- Witness for C10: two states differing in body order-independent radii
presentation, identifiers, masses, velocities, the center of the body at
the curveless index 1, and the curve's tail plots, get the same result. -/
theorem claim_C10_witness :
    Drawables.curve_body_mismatch
        ⟨[⟨0, (0, 0), 1, 5, (0, 1)⟩, ⟨1, (3, 0), 2, 7, (2, 2)⟩],
         [⟨[(0, 0), (9, 9)]⟩]⟩ 1 =
      Drawables.curve_body_mismatch
        ⟨[⟨42, (0, 0), 2, 99, (1, 1)⟩, ⟨43, (77, 77), 1, 0, (0, 0)⟩],
         [⟨[(0, 0)]⟩]⟩ 1 :=
  claim_C10
    ⟨[⟨0, (0, 0), 1, 5, (0, 1)⟩, ⟨1, (3, 0), 2, 7, (2, 2)⟩], [⟨[(0, 0), (9, 9)]⟩]⟩
    ⟨[⟨42, (0, 0), 2, 99, (1, 1)⟩, ⟨43, (77, 77), 1, 0, (0, 0)⟩], [⟨[(0, 0)]⟩]⟩
    1 (by decide) (by decide)
    (fun i hi => by
      obtain rfl : i = 0 := by simpa using hi
      decide)
    (fun i hi => by
      obtain rfl : i = 0 := by simpa using hi
      decide)
